import Mathlib

/-!
Verification of the PeakState AI routing core against its specification.

Shallow embedding of the Python sources:
  - backend/app/ai/orchestrator.py         (AIOrchestrator.route_request)
  - backend/app/ai/complexity_analyzer.py  (ComplexityAnalyzer, ComplexityFactors)
  - backend/app/ai/intent_classifier.py    (IntentClassifier.classify)
  - backend/app/ai/response_cache.py       (ResponseCacheManager)
  - backend/app/core/config.py             (routing thresholds)

Python floats that only ever hold small decimal constants are modelled as
rationals; machine-level float rounding plays no role in any claim below.
-/

set_option maxHeartbeats 1000000
set_option maxRecDepth 16000

namespace PeakState

/-- AIProvider enum (orchestrator.py lines 16-21). -/
inductive AIProvider
  | LOCAL_PHI
  | OPENAI_GPT5
  | OPENAI_GPT5_NANO
  | CLAUDE_SONNET_4
  deriving DecidableEq

/-- IntentType enum (orchestrator.py lines 24-32). -/
inductive IntentType
  | GREETING
  | CONFIRMATION
  | DATA_QUERY
  | ADVICE_REQUEST
  | EMOTIONAL_SUPPORT
  | COMPLEX_ANALYSIS
  | HEALTH_DIAGNOSIS
  deriving DecidableEq

/-- IntentClassification dataclass (orchestrator.py lines 35-42). -/
structure IntentClassification where
  intent : IntentType
  confidence : ℚ
  requires_empathy : Bool
  requires_tools : Bool
  requires_rag : Bool
  deriving DecidableEq

/-- RoutingDecision dataclass (orchestrator.py lines 45-53); all six fields
are required (none has a default value). -/
structure RoutingDecision where
  provider : AIProvider
  complexity : Int
  estimated_cost : ℚ
  estimated_latency : ℚ
  reason : String
  intent : IntentClassification
  deriving DecidableEq

/-- Routing-relevant settings (config.py lines 78-80). -/
structure Settings where
  AI_ROUTE_LOCAL_THRESHOLD : Int
  AI_ROUTE_MINI_THRESHOLD : Int
  AI_COST_OPTIMIZATION : Bool
  deriving DecidableEq

/-- Default values of the routing settings (config.py lines 78-80). -/
def defaultSettings : Settings :=
  ⟨3, 6, true⟩

/-- Per-1K-token cost table (orchestrator.py lines 77-82). -/
def cost_config : AIProvider → ℚ
  | .LOCAL_PHI => 0.0
  | .OPENAI_GPT5_NANO => 0.0002
  | .OPENAI_GPT5 => 0.005
  | .CLAUDE_SONNET_4 => 0.003

/-- Per-provider latency table in seconds (orchestrator.py lines 85-90). -/
def latency_config : AIProvider → ℚ
  | .LOCAL_PHI => 0.05
  | .OPENAI_GPT5_NANO => 0.8
  | .OPENAI_GPT5 => 2.0
  | .CLAUDE_SONNET_4 => 1.5

/-- Provider/reason selection of route_request (orchestrator.py lines 229-252):
the if/elif chain evaluated after intent classification and complexity scoring. -/
def route_select (s : Settings) (intent : IntentClassification) (complexity : Int) :
    AIProvider × String :=
  if !s.AI_COST_OPTIMIZATION then
    (.OPENAI_GPT5, "成本优化未启用,使用最强模型")
  else if complexity < s.AI_ROUTE_LOCAL_THRESHOLD then
    (.LOCAL_PHI, "低复杂度(" ++ toString complexity ++ "),使用本地模型")
  else if complexity < s.AI_ROUTE_MINI_THRESHOLD then
    (.OPENAI_GPT5_NANO, "中等复杂度(" ++ toString complexity ++ "),使用GPT-5 Nano")
  else if intent.requires_empathy then
    (.CLAUDE_SONNET_4, "需要情感理解,使用Claude Sonnet 4")
  else
    (.OPENAI_GPT5, "高复杂度(" ++ toString complexity ++ "),使用GPT-5")

/-- Non-forced tail of route_request (orchestrator.py lines 226-266), given the
already-computed intent classification and complexity score. -/
def route_core (s : Settings) (user_message : String) (intent : IntentClassification)
    (complexity : Int) : RoutingDecision :=
  let pr := route_select s intent complexity
  let estimated_tokens : ℚ := max ((user_message.length : ℚ) / 4) 100
  let estimated_cost : ℚ := cost_config pr.1 * (estimated_tokens / 1000)
  ⟨pr.1, complexity, estimated_cost, latency_config pr.1, pr.2, intent⟩

/-- Keyword-argument view of a Python call to the RoutingDecision dataclass
constructor: a field left at none was not passed at the call site. -/
structure RoutingDecisionArgs where
  provider : Option AIProvider
  complexity : Option Int
  estimated_cost : Option ℚ
  estimated_latency : Option ℚ
  reason : Option String
  intent : Option IntentClassification

/-- Python dataclass __init__ semantics for RoutingDecision: every field lacks
a default, so a call that omits any of them raises TypeError. -/
def mkRoutingDecision : RoutingDecisionArgs → Except String RoutingDecision
  | ⟨some p, some c, some ec, some el, some r, some i⟩ => .ok ⟨p, c, ec, el, r, i⟩
  | _ => .error "TypeError: __init__ missing required positional argument"

/-- Force branch of route_request (orchestrator.py lines 203-211).  The source
passes provider, complexity, estimated_cost, estimated_latency and reason to
the RoutingDecision constructor and omits the required field intent. -/
def route_request_forced (force_provider : AIProvider) : Except String RoutingDecision :=
  mkRoutingDecision
    ⟨some force_provider, some 5, some (cost_config force_provider * 2),
     some (latency_config force_provider), some "强制指定", none⟩

/-- ComplexityFactors dataclass (complexity_analyzer.py lines 17-24). -/
structure ComplexityFactors where
  base_score : Int
  context_adjustment : Int
  user_pattern_adjustment : Int
  conversation_depth_adjustment : Int
  technical_level_adjustment : Int
  deriving DecidableEq

/-- total_score property (complexity_analyzer.py lines 26-35). -/
def ComplexityFactors.total_score (f : ComplexityFactors) : Int :=
  max 1 (min 10
    (f.base_score +
     f.context_adjustment +
     f.user_pattern_adjustment +
     f.conversation_depth_adjustment +
     f.technical_level_adjustment))

/-- Spec-side clamp, from the words of the specification: clamp(sum, 1, 10). -/
def specClamp (lo hi x : Int) : Int :=
  max lo (min hi x)

/-- One entry of a conversation history list (a Python dict with role and
content keys). -/
structure Message where
  role : String
  content : String
  deriving DecidableEq

/-- Python str.lower, restricted to the per-character case mapping. -/
def strLower (s : String) : String :=
  String.mk (s.data.map Char.toLower)

/-- Python str.strip: whitespace removed from both ends. -/
def pyStrip (s : String) : String :=
  String.mk (((s.data.dropWhile Char.isWhitespace).reverse.dropWhile
    Char.isWhitespace).reverse)

/-- Python slicing s[:n]. -/
def strTake (s : String) (n : Nat) : String :=
  String.mk (s.data.take n)

/-- Python str.count for a single character. -/
def countChar (s : String) (c : Char) : Nat :=
  (s.data.filter (fun x => x = c)).length

/-- Occurrence of sub as a contiguous run inside l, tested at every suffix. -/
def hasSubstr (sub : List Char) : List Char → Bool
  | [] => sub.isEmpty
  | c :: t => sub.isPrefixOf (c :: t) || hasSubstr sub t

/-- Python substring containment test (kw in s). -/
def containsSub (s sub : String) : Bool :=
  hasSubstr sub.data s.data

/-- Conditional-clause keyword list (complexity_analyzer.py line 203). -/
def conditional_keywords : List String :=
  ["如果", "假如", "要是", "if", "但是", "不过", "然而"]

/-- ComplexityAnalyzer._analyze_context_complexity (complexity_analyzer.py
lines 172-221).  A Python conversation_history of None is the empty list. -/
def analyze_context_complexity (user_message : String)
    (conversation_history : List Message) : Int :=
  let a_len : Int :=
    if user_message.length > 200 then 2
    else if user_message.length > 100 then 1
    else 0
  let question_count : Nat := countChar user_message '?' + countChar user_message '？'
  let a_q : Int :=
    if question_count ≥ 3 then 2
    else if question_count ≥ 2 then 1
    else 0
  let msg_lower := strLower user_message
  let conditional_count : Nat :=
    (conditional_keywords.filter (fun kw => containsSub msg_lower kw)).length
  let a_cond : Int := if conditional_count ≥ 2 then 1 else 0
  let a_hist : Int :=
    if conversation_history.isEmpty then 0
    else
      let history_length := conversation_history.length
      let total_chars := (conversation_history.map (fun m => m.content.length)).sum
      (if history_length > 10 then 2
       else if history_length > 5 then 1
       else 0) +
      (if total_chars > 2000 then 1 else 0)
  a_len + a_q + a_cond + a_hist

/-! ## Intent classifier (intent_classifier.py) -/

/-- Alternatives of the two prefix-anchored greeting regexes of
_classify_simple_intents (intent_classifier.py lines 219-222): re.search with
a leading caret over an alternation is a prefix test for each alternative. -/
def greeting_alternatives : List String :=
  ["你好", "您好", "hi", "hello", "早上好", "下午好", "晚上好", "嗨", "hey",
   "在吗", "在不在", "有人吗"]

/-- Confirmation word list (intent_classifier.py lines 236-239). -/
def confirmation_words : List String :=
  ["好的", "好", "嗯", "是的", "对", "ok", "行", "可以", "没问题", "同意", "确定"]

/-- IntentClassifier._classify_simple_intents (intent_classifier.py lines
204-249).  The length guard uses the raw message; the word tests use the
lowercased, stripped message, as in the source. -/
def classify_simple_intents (message : String) : Option IntentClassification :=
  let msg_lower := pyStrip (strLower message)
  if greeting_alternatives.any (fun p => p.data.isPrefixOf msg_lower.data) then
    some ⟨.GREETING, 0.95, false, false, false⟩
  else if message.length ≤ 6 &&
      confirmation_words.any (fun w => containsSub msg_lower w) then
    some ⟨.CONFIRMATION, 0.90, false, false, false⟩
  else
    none

/-- Abstract view of the sentence-transformer during one classify call: ok
says whether lazy loading and encoding succeed, and sim gives the maximum
cosine similarity of the message against each intent's template examples. -/
structure SemanticModel where
  ok : Bool
  sim : IntentType → ℚ

/-- Insertion order of the intent template dict (_initialize_templates,
intent_classifier.py lines 66-148), which the semantic loop iterates. -/
def template_intents : List IntentType :=
  [.DATA_QUERY, .ADVICE_REQUEST, .EMOTIONAL_SUPPORT, .COMPLEX_ANALYSIS, .HEALTH_DIAGNOSIS]

/-- Best-intent loop of _classify_with_semantic_model (intent_classifier.py
lines 278-292): best starts at none with best score 0.0 and is replaced on a
strictly greater similarity. -/
def best_template_match (m : SemanticModel) : Option IntentType × ℚ :=
  template_intents.foldl
    (fun acc it => if m.sim it > acc.2 then (some it, m.sim it) else acc)
    (none, 0)

/-- Descending insertion, modelling Python sorted(..., reverse=True). -/
def insertDesc (x : ℚ) : List ℚ → List ℚ
  | [] => [x]
  | y :: t => if x ≥ y then x :: y :: t else y :: insertDesc x t

/-- Descending sort, modelling Python sorted(..., reverse=True). -/
def sortDesc : List ℚ → List ℚ
  | [] => []
  | x :: t => insertDesc x (sortDesc t)

/-- IntentClassifier._calibrate_confidence (intent_classifier.py lines
323-357): confidence = top * (1 + margin * 0.5) clamped to [0.5, 0.99]. -/
def calibrate_confidence (m : SemanticModel) : ℚ :=
  let sorted_scores := sortDesc (template_intents.map m.sim)
  let top_score := sorted_scores.headD 0
  let second_score := (sorted_scores.drop 1).headD 0
  let margin := top_score - second_score
  let confidence := top_score * (1 + margin * 0.5)
  max 0.5 (min confidence 0.99)

/-- IntentClassifier._classify_with_semantic_model (intent_classifier.py lines
251-321), for a model that loaded and encoded successfully. -/
def classify_with_semantic_model (m : SemanticModel) : IntentClassification :=
  let bm := best_template_match m
  let best_intent := bm.1.getD .ADVICE_REQUEST
  let requires_empathy := best_intent == IntentType.EMOTIONAL_SUPPORT
  let requires_tools := best_intent == IntentType.DATA_QUERY ||
    best_intent == IntentType.COMPLEX_ANALYSIS ||
    best_intent == IntentType.HEALTH_DIAGNOSIS
  let requires_rag := best_intent == IntentType.ADVICE_REQUEST ||
    best_intent == IntentType.COMPLEX_ANALYSIS ||
    best_intent == IntentType.HEALTH_DIAGNOSIS
  ⟨best_intent, calibrate_confidence m, requires_empathy, requires_tools, requires_rag⟩

/-- IntentClassifier.classify (intent_classifier.py lines 359-417).  The rule
stage never touches the model.  On the semantic path there is no try/except
anywhere in classify, _classify_with_semantic_model or _load_model that could
recover a load or encode failure: _load_model re-raises RuntimeError (lines
175-177), so a failing model propagates out of classify. -/
def pyClassify (m : SemanticModel) (message : String) :
    Except String IntentClassification :=
  match classify_simple_intents message with
  | some r => .ok r
  | none =>
    if m.ok then .ok (classify_with_semantic_model m)
    else .error "RuntimeError: Intent classifier model loading failed"

/-! ## Response cache manager (response_cache.py) -/

/-- CacheEntry dataclass (response_cache.py lines 25-45).  The JSON round trip
through Redis (to_dict, json.dumps, json.loads, from_dict) is modelled as the
identity on the entry. -/
structure CacheEntry where
  query : String
  response : String
  provider : String
  intent : String
  complexity : Int
  tokens_used : Int
  cached_at : String
  hit_count : Int
  user_id : Option String
  deriving DecidableEq

/-- One stored Qdrant point: id, the text whose embedding is the stored
vector, and the payload.  Encoding is kept abstract: the vector is represented
by the encoded text and scored by CacheEnv.score. -/
structure QdrantPoint where
  id : String
  vec : String
  payload : CacheEntry
  deriving DecidableEq

/-- Joint state of the two backing stores: the Redis keyspace and the Qdrant
collections (name to point list).  Newer writes are prepended and shadow older
entries with the same key. -/
structure CacheState where
  redis : List (String × CacheEntry)
  collections : List (String × List QdrantPoint)
  deriving DecidableEq

/-- Association-list lookup, first (newest) binding wins. -/
def alistGet {α : Type} : List (String × α) → String → Option α
  | [], _ => none
  | kv :: t, k => if kv.1 == k then some kv.2 else alistGet t k

/-- Abstract environment of the cache manager: the md5 hex digest and the
cosine similarity the sentence-transformer assigns to a query against a
stored vector (both opaque to the claims below). -/
structure CacheEnv where
  md5hex : String → String
  score : String → String → ℚ

/-- ResponseCacheManager._generate_cache_key (response_cache.py lines
171-199). -/
def generate_cache_key (env : CacheEnv) (query user_id : String)
    (context_hash : Option String) : String :=
  let query_normalized := pyStrip (strLower query)
  let query_hash := strTake (env.md5hex query_normalized) 16
  match context_hash with
  | some ch => "response:" ++ user_id ++ ":" ++ query_hash ++ ":" ++ ch
  | none => "response:" ++ user_id ++ ":" ++ query_hash

/-- ResponseCacheManager._calculate_context_hash (response_cache.py lines
201-230): hash of the last three turns, none for an empty history. -/
def calculate_context_hash (env : CacheEnv) (history : List Message) :
    Option String :=
  if history.isEmpty then none
  else
    let recent := history.drop (history.length - 3)
    let context_str :=
      recent.foldl (fun acc m => acc ++ m.role ++ ":" ++ m.content ++ "|") ""
    some (strTake (env.md5hex context_str) 8)

/-- Reachability of each tier's backing store during one lookup; when a flag
is false the corresponding store call raises and the tier check's own
try/except catches it (returning None for that tier). -/
structure TierHealth where
  l1Ok : Bool
  l2Ok : Bool
  l3Ok : Bool

/-- ResponseCacheManager._check_l1_cache (response_cache.py lines 313-352):
exact-match lookup; on hit the entry's hit_count is incremented and the entry
rewritten under the same key; any raised error is caught and yields None. -/
def check_l1_cache (env : CacheEnv) (ok : Bool) (st : CacheState)
    (query user_id : String) (history : List Message) :
    Option CacheEntry × CacheState :=
  if !ok then (none, st)
  else
    match alistGet st.redis
        (generate_cache_key env query user_id (calculate_context_hash env history)) with
    | none => (none, st)
    | some e =>
      (some { e with hit_count := e.hit_count + 1 },
       { st with redis :=
          (generate_cache_key env query user_id (calculate_context_hash env history),
           { e with hit_count := e.hit_count + 1 }) :: st.redis })

/-- Qdrant search with limit 1 and a score threshold: the best-scoring stored
point among those at or above the threshold, if any. -/
def qdrant_search_top (env : CacheEnv) (pts : List QdrantPoint) (query : String)
    (threshold : ℚ) : Option QdrantPoint :=
  (pts.filter (fun p => env.score query p.vec ≥ threshold)).foldl
    (fun acc p =>
      match acc with
      | none => some p
      | some b => if env.score query p.vec > env.score query b.vec then some p else acc)
    none

/-- ResponseCacheManager._check_l2_cache (response_cache.py lines 354-404):
per-user semantic search; an absent collection or any raised error yields
None. -/
def check_l2_cache (env : CacheEnv) (ok : Bool) (st : CacheState)
    (query user_id : String) (threshold : ℚ) : Option CacheEntry :=
  if !ok then none
  else
    match alistGet st.collections ("cache_user_" ++ user_id) with
    | none => none
    | some pts =>
      match qdrant_search_top env pts query threshold with
      | none => none
      | some r => if env.score query r.vec ≥ threshold then some r.payload else none

/-- ResponseCacheManager._check_l3_cache (response_cache.py lines 406-441):
shared knowledge-base search at fixed threshold 0.88; any raised error yields
None. -/
def check_l3_cache (env : CacheEnv) (ok : Bool) (st : CacheState)
    (query : String) : Option CacheEntry :=
  if !ok then none
  else
    match alistGet st.collections "knowledge_base_qa" with
    | none => none
    | some pts =>
      match qdrant_search_top env pts query 0.88 with
      | none => none
      | some r => if env.score query r.vec ≥ 0.88 then some r.payload else none

/-- ResponseCacheManager.get_cached_response (response_cache.py lines 232-311)
after initialization, statistics bookkeeping omitted: the three tiers checked
in order with short-circuit on the first hit. -/
def get_cached_response (env : CacheEnv) (h : TierHealth) (st : CacheState)
    (query user_id : String) (history : List Message)
    (similarity_threshold : ℚ) : Option (CacheEntry × String) × CacheState :=
  match check_l1_cache env h.l1Ok st query user_id history with
  | (some e, st1) => (some (e, "L1"), st1)
  | (none, st1) =>
    match check_l2_cache env h.l2Ok st1 query user_id similarity_threshold with
    | some e => (some (e, "L2"), st1)
    | none =>
      match check_l3_cache env h.l3Ok st1 query with
      | some e => (some (e, "L3"), st1)
      | none => (none, st1)

/-- Health of the stores during one write: initOk covers the lazy
initialize() call at the top of set_cache (its failure is caught by the outer
except of set_cache), redisOk the Redis SET, qdrantOk the encode plus Qdrant
upsert (modelled as failing before any state change). -/
structure WriteHealth where
  initOk : Bool
  redisOk : Bool
  qdrantOk : Bool

/-- ResponseCacheManager._write_to_redis (response_cache.py lines 521-540):
its own try/except makes a failed Redis SET a logged no-op. -/
def write_to_redis (env : CacheEnv) (ok : Bool) (st : CacheState)
    (query : String) (entry : CacheEntry) (user_id : String)
    (history : List Message) : CacheState :=
  if !ok then st
  else
    { st with redis :=
        (generate_cache_key env query user_id (calculate_context_hash env history),
         entry) :: st.redis }

/-- ResponseCacheManager._write_to_qdrant (response_cache.py lines 542-594):
create the per-user collection if absent, then upsert the point whose id is
md5(user_id:query); its own try/except makes a failure a logged no-op. -/
def write_to_qdrant (env : CacheEnv) (ok : Bool) (st : CacheState)
    (query : String) (entry : CacheEntry) (user_id : String) : CacheState :=
  if !ok then st
  else
    { st with collections :=
        ("cache_user_" ++ user_id,
         ⟨env.md5hex (user_id ++ ":" ++ query), query, entry⟩ ::
           ((alistGet st.collections ("cache_user_" ++ user_id)).getD []).filter
             (fun p => !(p.id == env.md5hex (user_id ++ ":" ++ query)))) ::
          st.collections }

/-- The CacheEntry that set_cache builds (response_cache.py lines 477-487):
hit_count 0 and the owning user id. -/
def set_cache_entry (query response user_id provider intent : String)
    (complexity tokens_used : Int) (now : String) : CacheEntry :=
  ⟨query, response, provider, intent, complexity, tokens_used, now, 0, some user_id⟩

/-- ResponseCacheManager.set_cache (response_cache.py lines 443-519),
statistics omitted: build the entry (hit_count 0), write L1, then write L2
only when complexity is at least 3.  The whole body sits in a try/except that
logs and returns, so a failing initialize() ends the call normally with no
write, and the two tier writes catch their own errors independently. -/
def set_cache (env : CacheEnv) (w : WriteHealth) (st : CacheState)
    (query response user_id provider intent : String)
    (complexity tokens_used : Int) (history : List Message) (now : String) :
    Except String CacheState :=
  if !w.initOk then .ok st
  else
    let cache_entry : CacheEntry :=
      set_cache_entry query response user_id provider intent complexity tokens_used now
    let st1 := write_to_redis env w.redisOk st query cache_entry user_id history
    let st2 :=
      if complexity ≥ 3 then write_to_qdrant env w.qdrantOk st1 query cache_entry user_id
      else st1
    .ok st2

/-- Health of the stores during one invalidation. -/
structure InvalidateHealth where
  redisDelOk : Bool
  qdrantDelOk : Bool

/-- Deletion of every Redis key matching the glob response:{user_id}:* — the
keys carrying that literal prefix (redis_client.py delete_pattern, called from
response_cache.py line 605-606). -/
def delete_pattern_user (st : CacheState) (user_id : String) : CacheState :=
  { st with redis := st.redis.filter (fun kv => !(("response:" ++ user_id ++ ":").data.isPrefixOf kv.1.data)) }

/-- Qdrant delete_collection: drops the named collection. -/
def delete_collection (st : CacheState) (name : String) : CacheState :=
  { st with collections := st.collections.filter (fun c => !(c.1 == name)) }

/-- ResponseCacheManager.invalidate_user_cache (response_cache.py lines
596-621).  RedisManager.delete_pattern catches backend errors itself
(redis_client.py lines 143-150) and returns 0, so an unreachable Redis skips
the key deletion without raising; delete_collection sits in its own
try/except pass; the outer try/except logs anything else, so the call always
returns normally. -/
def invalidate_user_cache (h : InvalidateHealth) (st : CacheState)
    (user_id : String) : Except String CacheState :=
  let st1 := if h.redisDelOk then delete_pattern_user st user_id else st
  let st2 :=
    if h.qdrantDelOk then delete_collection st1 ("cache_user_" ++ user_id) else st1
  .ok st2

/-! ## Concrete inputs used by witnesses and counterexamples -/

/-- A 200-character filler string. -/
def fillerA : String := String.mk (List.replicate 200 'a')

/-- Message of 207 characters with three question marks and two conditional
keywords. -/
def ctxCounterMsg : String := fillerA ++ "if如果???"

/-- History of 11 turns totalling 2200 characters. -/
def ctxCounterHist : List Message := List.replicate 11 ⟨"user", fillerA⟩

/-- Similarity profile whose top template intent is emotional support. -/
def wSim : IntentType → ℚ
  | .EMOTIONAL_SUPPORT => 0.9
  | _ => 0.1

/-- Semantic-model oracle whose top template similarity is emotional
support. -/
def wModel : SemanticModel :=
  ⟨true, wSim⟩

/-- Concrete cache environment: constant digest and maximal similarity. -/
def env0 : CacheEnv := ⟨fun _ => "h", fun _ _ => 1⟩

/-- Tier-1 entry cached for user u under query 你好. -/
def e1c : CacheEntry := ⟨"你好", "L1回答", "phi-3.5", "greeting", 1, 10, "t0", 0, some "u"⟩

/-- The entry e1c after one hit. -/
def e1cHit : CacheEntry := ⟨"你好", "L1回答", "phi-3.5", "greeting", 1, 10, "t0", 1, some "u"⟩

/-- Tier-2 entry cached for user u. -/
def e2c : CacheEntry := ⟨"你好", "L2回答", "gpt-5", "greeting", 3, 20, "t0", 0, some "u"⟩

/-- A knowledge-base entry. -/
def e3c : CacheEntry := ⟨"你好", "L3回答", "gpt-5", "greeting", 3, 20, "t0", 0, none⟩

/-- State in which the query 你好 of user u hits both Tier 1 and Tier 2. -/
def st3 : CacheState :=
  ⟨[("response:u:h", e1c)],
   [("cache_user_u", [⟨"p2", "你好", e2c⟩]), ("knowledge_base_qa", [⟨"p3", "你好", e3c⟩])]⟩

/-- The state st3 after the Tier-1 hit rewrote the entry. -/
def st3x : CacheState :=
  ⟨("response:u:h", e1cHit) :: [("response:u:h", e1c)],
   [("cache_user_u", [⟨"p2", "你好", e2c⟩]), ("knowledge_base_qa", [⟨"p3", "你好", e3c⟩])]⟩

/-- State holding Tier-1 and Tier-2 entries for users alice and bob plus the
shared knowledge base. -/
def st8 : CacheState :=
  ⟨[("response:alice:h", e1c), ("response:bob:h", e1c)],
   [("cache_user_alice", [⟨"pa", "你好", e2c⟩]),
    ("cache_user_bob", [⟨"pb", "你好", e2c⟩]),
    ("knowledge_base_qa", [⟨"p3", "你好", e3c⟩])]⟩

/-! ## Helper lemmas -/

theorem alistGet_filter_out {α : Type} (l : List (String × α)) (k : String)
    (p : String × α → Bool) (hk : ∀ v, p (k, v) = false) :
    alistGet (l.filter p) k = none := by
  induction l with
  | nil => rfl
  | cons kv t ih =>
    by_cases hkv : p kv = true
    · rw [List.filter_cons_of_pos hkv]
      have hne : (kv.1 == k) = false := by
        rw [beq_eq_false_iff_ne]
        intro he
        have h2 := hk kv.2
        rw [← he, Prod.mk.eta] at h2
        rw [hkv] at h2
        exact absurd h2 (by simp)
      rw [alistGet, hne]
      exact ih
    · rw [List.filter_cons_of_neg hkv]
      exact ih

theorem alistGet_filter_keep {α : Type} (l : List (String × α)) (k : String)
    (p : String × α → Bool) (hk : ∀ v, p (k, v) = true) :
    alistGet (l.filter p) k = alistGet l k := by
  induction l with
  | nil => rfl
  | cons kv t ih =>
    by_cases hkv : kv.1 = k
    · have hp : p kv = true := by
        have h2 := hk kv.2
        rw [← hkv, Prod.mk.eta] at h2
        exact h2
      rw [List.filter_cons_of_pos hp, alistGet, alistGet,
        show (kv.1 == k) = true from beq_iff_eq.mpr hkv]
      simp
    · by_cases hp : p kv = true
      · rw [List.filter_cons_of_pos hp, alistGet, alistGet,
          show (kv.1 == k) = false from beq_eq_false_iff_ne.mpr hkv]
        exact ih
      · rw [List.filter_cons_of_neg hp, alistGet,
          show (kv.1 == k) = false from beq_eq_false_iff_ne.mpr hkv]
        exact ih

theorem prefix_colon_cancel (u u2 x : List Char) (hu : ':' ∉ u) (hu2 : ':' ∉ u2)
    (h : u2 ++ [':'] <+: u ++ ':' :: x) : u2 = u := by
  induction u2 generalizing u with
  | nil =>
    cases u with
    | nil => rfl
    | cons c t =>
      rw [List.nil_append, List.cons_append, List.cons_prefix_cons] at h
      have h1 := h.1
      subst h1
      exact absurd (List.mem_cons_self _ _) hu
  | cons c2 t2 ih =>
    cases u with
    | nil =>
      rw [List.cons_append, List.nil_append, List.cons_prefix_cons] at h
      have h1 := h.1
      subst h1
      exact absurd (List.mem_cons_self _ _) hu2
    | cons c t =>
      rw [List.cons_append, List.cons_append, List.cons_prefix_cons] at h
      have ht : t2 = t :=
        ih t (fun hm => hu (List.mem_cons_of_mem c hm))
          (fun hm => hu2 (List.mem_cons_of_mem c2 hm)) h.2
      rw [h.1, ht]

/-- Tail of a generated cache key after its response:{user}: prefix. -/
def genkey_rest (env : CacheEnv) (q : String) (ctx : Option String) : List Char :=
  match ctx with
  | none => (strTake (env.md5hex (pyStrip (strLower q))) 16).data
  | some ch => (strTake (env.md5hex (pyStrip (strLower q))) 16).data ++ ':' :: ch.data

theorem colon_join_data (a b : String) :
    (a ++ ":" ++ b).data = a.data ++ ':' :: b.data := by
  rw [String.data_append, String.data_append, List.append_assoc]
  rfl

theorem genkey_data (env : CacheEnv) (q u : String) (ctx : Option String) :
    (generate_cache_key env q u ctx).data =
      "response:".data ++ (u.data ++ (':' :: genkey_rest env q ctx)) := by
  cases ctx with
  | none =>
    show ("response:" ++ u ++ ":" ++ strTake (env.md5hex (pyStrip (strLower q))) 16).data = _
    rw [colon_join_data, String.data_append, List.append_assoc]
    rfl
  | some ch =>
    show ("response:" ++ u ++ ":" ++ strTake (env.md5hex (pyStrip (strLower q))) 16
      ++ ":" ++ ch).data = _
    rw [colon_join_data, colon_join_data, String.data_append]
    simp only [List.append_assoc, List.cons_append]
    rfl

theorem respPrefix_data (u : String) :
    ("response:" ++ u ++ ":").data = "response:".data ++ (u.data ++ [':']) := by
  simp only [String.data_append, List.append_assoc]

theorem genkey_self_prefixed (env : CacheEnv) (q u : String) (ctx : Option String) :
    ("response:" ++ u ++ ":").data.isPrefixOf (generate_cache_key env q u ctx).data = true := by
  rw [List.isPrefixOf_iff_prefix, genkey_data, respPrefix_data,
    List.prefix_append_right_inj, List.prefix_append_right_inj]
  exact List.cons_prefix_cons.mpr ⟨rfl, List.nil_prefix⟩

theorem genkey_other_not_prefixed (env : CacheEnv) (q u u2 : String)
    (ctx : Option String) (hne : u2 ≠ u) (hu : ':' ∉ u.data) (hu2 : ':' ∉ u2.data) :
    ("response:" ++ u ++ ":").data.isPrefixOf (generate_cache_key env q u2 ctx).data = false := by
  rw [Bool.eq_false_iff]
  intro hpre
  rw [List.isPrefixOf_iff_prefix, genkey_data, respPrefix_data,
    List.prefix_append_right_inj] at hpre
  exact hne (String.ext (prefix_colon_cancel u2.data u.data _ hu2 hu hpre)).symm

theorem cache_user_collection_inj (u u2 : String)
    (h : ("cache_user_" ++ u2) = ("cache_user_" ++ u)) : u2 = u := by
  have hd := congrArg String.data h
  rw [String.data_append, String.data_append] at hd
  exact String.ext (List.append_cancel_left hd)

theorem cache_user_ne_knowledge (u : String) :
    ("cache_user_" ++ u) ≠ "knowledge_base_qa" := by
  intro h
  have hd := congrArg String.data h
  rw [String.data_append] at hd
  rw [show ("cache_user_" : String).data = 'c' :: "ache_user_".data from rfl] at hd
  rw [show ("knowledge_base_qa" : String).data = 'k' :: "nowledge_base_qa".data from rfl] at hd
  rw [List.cons_append] at hd
  injection hd with h1 h2
  exact absurd h1 (by decide)

theorem simple_intents_cases (msg : String) (r : IntentClassification)
    (h : classify_simple_intents msg = some r) :
    r.intent = .GREETING ∨ r.intent = .CONFIRMATION := by
  unfold classify_simple_intents at h
  dsimp only at h
  split at h
  · cases h
    exact Or.inl rfl
  · split at h
    · cases h
      exact Or.inr rfl
    · cases h

theorem semantic_emotional_requires_empathy (m : SemanticModel)
    (hi : (classify_with_semantic_model m).intent = .EMOTIONAL_SUPPORT) :
    (classify_with_semantic_model m).requires_empathy = true := by
  unfold classify_with_semantic_model at hi ⊢
  dsimp only at hi ⊢
  rw [hi]
  rfl

theorem classify_emotional_requires_empathy (m : SemanticModel) (msg : String)
    (ic : IntentClassification) (h : pyClassify m msg = .ok ic)
    (hi : ic.intent = .EMOTIONAL_SUPPORT) : ic.requires_empathy = true := by
  unfold pyClassify at h
  cases hs : classify_simple_intents msg with
  | some r =>
    rw [hs] at h
    injection h with hri
    rw [← hri] at hi ⊢
    rcases simple_intents_cases msg r hs with hg | hc
    · rw [hg] at hi
      cases hi
    · rw [hc] at hi
      cases hi
  | none =>
    rw [hs] at h
    by_cases hm : m.ok = true
    · rw [hm] at h
      simp only [if_true] at h
      cases h
      exact semantic_emotional_requires_empathy m hi
    · rw [Bool.not_eq_true] at hm
      rw [hm] at h
      simp only [Bool.false_eq_true, if_false] at h
      cases h

theorem check_l1_fst_none (env : CacheEnv) (ok : Bool) (st : CacheState)
    (q u : String) (hist : List Message)
    (h1 : (check_l1_cache env ok st q u hist).1 = none) :
    check_l1_cache env ok st q u hist = (none, st) := by
  cases ok with
  | false => rfl
  | true =>
    unfold check_l1_cache at h1 ⊢
    rcases halist : alistGet st.redis
        (generate_cache_key env q u (calculate_context_hash env hist)) with _ | e
    · simp
    · rw [halist] at h1
      simp at h1

theorem get_cached_of_l1_none (env : CacheEnv) (h : TierHealth) (st : CacheState)
    (q u : String) (hist : List Message) (thr : ℚ)
    (h1 : check_l1_cache env h.l1Ok st q u hist = (none, st)) :
    get_cached_response env h st q u hist thr =
      (match check_l2_cache env h.l2Ok st q u thr with
       | some e => (some (e, "L2"), st)
       | none =>
         match check_l3_cache env h.l3Ok st q with
         | some e => (some (e, "L3"), st)
         | none => (none, st)) := by
  unfold get_cached_response
  rw [h1]

theorem alistGet_cons_self {α : Type} (k : String) (v : α) (l : List (String × α)) :
    alistGet ((k, v) :: l) k = some v := by
  rw [alistGet]
  simp

theorem alistGet_cons_ne {α : Type} (k1 k : String) (v : α) (l : List (String × α))
    (h : k1 ≠ k) : alistGet ((k1, v) :: l) k = alistGet l k := by
  rw [alistGet, beq_eq_false_iff_ne.mpr h]
  simp

theorem all_filter_self {α : Type} (l : List α) (p : α → Bool) :
    (l.filter p).all p = true := by
  rw [List.all_eq_true]
  intro x hx
  exact (List.mem_filter.mp hx).2

theorem wBest : best_template_match wModel = (some .EMOTIONAL_SUPPORT, 0.9) := by
  norm_num [best_template_match, template_intents, wModel, wSim]

theorem wIntent : (classify_with_semantic_model wModel).intent = .EMOTIONAL_SUPPORT := by
  simp [classify_with_semantic_model, wBest]

theorem wL2 : check_l2_cache env0 true st3 "你好" "u" 0.92 = some e2c := by
  have h1 : alistGet st3.collections ("cache_user_" ++ "u") =
      some [⟨"p2", "你好", e2c⟩] := rfl
  simp only [check_l2_cache, h1]
  norm_num [qdrant_search_top, List.filter, env0]

/-! ## Claims -/

/-- C2: for every combination of base score and the four adjustments
(including negative user-pattern adjustments), total_score equals
clamp(sum, 1, 10) and therefore always lies in [1, 10]. -/
theorem claim2_total_score_is_clamped_sum (f : ComplexityFactors) :
    f.total_score =
      specClamp 1 10
        (f.base_score + f.context_adjustment + f.user_pattern_adjustment +
         f.conversation_depth_adjustment + f.technical_level_adjustment) ∧
    1 ≤ f.total_score ∧ f.total_score ≤ 10 := by
  refine ⟨rfl, le_max_left _ _, ?_⟩
  exact max_le (by norm_num) (min_le_left _ _)

/-- C6 (amended): the context adjustment computed by
_analyze_context_complexity is nonnegative and at most +8 (not +6: the five
contributions cap at 2, 2, 1, 2 and 1). -/
theorem claim6_context_adjustment_bound (user_message : String)
    (conversation_history : List Message) :
    0 ≤ analyze_context_complexity user_message conversation_history ∧
    analyze_context_complexity user_message conversation_history ≤ 8 := by
  simp only [analyze_context_complexity]
  constructor <;> split_ifs <;> omega

/-- C6 (counterexample): a 207-character message with three question marks
and two conditional keywords, with an 11-turn 2200-character history, gets
context adjustment 8, above the claimed cap of +6. -/
theorem claim6_counterexample :
    analyze_context_complexity ctxCounterMsg ctxCounterHist = 8 ∧
    ¬ analyze_context_complexity ctxCounterMsg ctxCounterHist ≤ 6 := by
  constructor <;> decide

/-- C4: calling route_request with a forced provider does not return the
claimed RoutingDecision: the dataclass constructor call omits the required
intent field, so every forced call raises TypeError.  Evaluated concretely at
force_provider = LOCAL_PHI. -/
theorem claim4_force_provider_raises :
    route_request_forced AIProvider.LOCAL_PHI =
      Except.error "TypeError: __init__ missing required positional argument" ∧
    ∀ p, (route_request_forced p).isOk = false := by
  exact ⟨rfl, fun p => rfl⟩

/-- C1: with cost optimization enabled and no forced provider the decision
table is evaluated in order with first match winning (local below the local
threshold, nano below the mini threshold, Claude Sonnet 4 for
empathy-requiring intents regardless of score, flagship otherwise); and any
request classified as emotional support routes to Claude Sonnet 4 at
complexity 7 under the default thresholds 3 and 6. -/
theorem claim1_decision_table (s : Settings) (ic : IntentClassification) (c : Int)
    (hopt : s.AI_COST_OPTIMIZATION = true) :
    ((c < s.AI_ROUTE_LOCAL_THRESHOLD → (route_select s ic c).1 = .LOCAL_PHI) ∧
     (¬ c < s.AI_ROUTE_LOCAL_THRESHOLD → c < s.AI_ROUTE_MINI_THRESHOLD →
       (route_select s ic c).1 = .OPENAI_GPT5_NANO) ∧
     (¬ c < s.AI_ROUTE_LOCAL_THRESHOLD → ¬ c < s.AI_ROUTE_MINI_THRESHOLD →
       ic.requires_empathy = true → (route_select s ic c).1 = .CLAUDE_SONNET_4) ∧
     (¬ c < s.AI_ROUTE_LOCAL_THRESHOLD → ¬ c < s.AI_ROUTE_MINI_THRESHOLD →
       ic.requires_empathy = false → (route_select s ic c).1 = .OPENAI_GPT5)) ∧
    (∀ (m : SemanticModel) (msg umsg : String) (jc : IntentClassification),
      pyClassify m msg = .ok jc → jc.intent = .EMOTIONAL_SUPPORT →
      (route_core defaultSettings umsg jc 7).provider = .CLAUDE_SONNET_4) := by
  constructor
  · refine ⟨?_, ?_, ?_, ?_⟩
    · intro h1
      simp [route_select, hopt, h1]
    · intro h1 h2
      simp [route_select, hopt, h1, h2]
    · intro h1 h2 h3
      simp [route_select, hopt, h1, h2, h3]
    · intro h1 h2 h3
      simp [route_select, hopt, h1, h2, h3]
  · intro m msg umsg jc hok hint
    have hemp := classify_emotional_requires_empathy m msg jc hok hint
    show (route_select defaultSettings jc 7).1 = _
    norm_num [route_select, defaultSettings, hemp]

/-- C1 witness: the model wModel classifies 最近压力很大啊 as emotional support
and the routed provider at complexity 7 is Claude Sonnet 4. -/
theorem claim1_witness :
    defaultSettings.AI_COST_OPTIMIZATION = true ∧
    pyClassify wModel "最近压力很大啊" = .ok (classify_with_semantic_model wModel) ∧
    (classify_with_semantic_model wModel).intent = .EMOTIONAL_SUPPORT ∧
    (route_core defaultSettings "最近压力很大啊" (classify_with_semantic_model wModel)
      7).provider = .CLAUDE_SONNET_4 :=
  ⟨rfl, by rfl, wIntent,
    (claim1_decision_table defaultSettings (classify_with_semantic_model wModel) 7 rfl).2
      wModel "最近压力很大啊" "最近压力很大啊" (classify_with_semantic_model wModel)
      (by rfl) wIntent⟩

/-- C5 (counterexample): with the embedding model unavailable, classify of a
message the rule stage does not resolve propagates the RuntimeError instead
of returning the default advice-request classification. -/
theorem claim5_counterexample :
    pyClassify ⟨false, fun _ => 0⟩ "今天天气怎么样呢" =
      .error "RuntimeError: Intent classifier model loading failed" := rfl

/-- C5 (amended): classify returns a classification whenever the rule stage
resolves the message (never touching the model) or the model loads and
encodes successfully; when the model fails on a message the rules do not
resolve, the RuntimeError propagates to the caller; the low-confidence
advice-request default arises only from an all-nonpositive similarity
profile, not from errors. -/
theorem claim5_classify_error_contract (m : SemanticModel) (msg : String) :
    (∀ r, classify_simple_intents msg = some r → pyClassify m msg = .ok r) ∧
    (m.ok = true → ∃ ic, pyClassify m msg = .ok ic) ∧
    (m.ok = false → classify_simple_intents msg = none →
      pyClassify m msg = .error "RuntimeError: Intent classifier model loading failed") ∧
    ((best_template_match m).1 = none →
      (classify_with_semantic_model m).intent = .ADVICE_REQUEST) := by
  refine ⟨?_, ?_, ?_, ?_⟩
  · intro r hr
    unfold pyClassify
    rw [hr]
  · intro hok
    cases hs : classify_simple_intents msg with
    | some r =>
      refine ⟨r, ?_⟩
      unfold pyClassify
      rw [hs]
    | none =>
      refine ⟨classify_with_semantic_model m, ?_⟩
      unfold pyClassify
      rw [hs, hok]
      rfl
  · intro hbad hnone
    unfold pyClassify
    rw [hnone, hbad]
    rfl
  · intro hb
    unfold classify_with_semantic_model
    dsimp only
    rw [hb]
    rfl

/-- C5 witness: a healthy model classifies without error. -/
theorem claim5_witness :
    (⟨true, fun _ => 0⟩ : SemanticModel).ok = true ∧
    (∃ ic, pyClassify ⟨true, fun _ => 0⟩ "今天天气怎么样呢" = .ok ic) :=
  ⟨rfl, (claim5_classify_error_contract ⟨true, fun _ => 0⟩ "今天天气怎么样呢").2.1 rfl⟩

/-- C3: the three cache tiers are checked strictly in order L1, L2, L3 with
short-circuit on the first hit: an L1 hit is returned labeled L1 regardless
of the later tiers, L2 decides the result only after an L1 miss, L3 only
after L1 and L2 missed, and the lookup returns a miss only when all three
missed. -/
theorem claim3_tier_precedence (env : CacheEnv) (h : TierHealth) (st : CacheState)
    (query user_id : String) (history : List Message) (thr : ℚ) :
    (∀ e st1, check_l1_cache env h.l1Ok st query user_id history = (some e, st1) →
      get_cached_response env h st query user_id history thr = (some (e, "L1"), st1)) ∧
    (∀ e, (check_l1_cache env h.l1Ok st query user_id history).1 = none →
      check_l2_cache env h.l2Ok st query user_id thr = some e →
      get_cached_response env h st query user_id history thr = (some (e, "L2"), st)) ∧
    ((check_l1_cache env h.l1Ok st query user_id history).1 = none →
      check_l2_cache env h.l2Ok st query user_id thr = none →
      ∀ e, check_l3_cache env h.l3Ok st query = some e →
        get_cached_response env h st query user_id history thr = (some (e, "L3"), st)) ∧
    ((check_l1_cache env h.l1Ok st query user_id history).1 = none →
      check_l2_cache env h.l2Ok st query user_id thr = none →
      check_l3_cache env h.l3Ok st query = none →
      get_cached_response env h st query user_id history thr = (none, st)) := by
  refine ⟨?_, ?_, ?_, ?_⟩
  · intro e st1 h1
    unfold get_cached_response
    rw [h1]
  · intro e h1 h2
    rw [get_cached_of_l1_none env h st query user_id history thr
      (check_l1_fst_none env h.l1Ok st query user_id history h1), h2]
  · intro h1 h2 e h3
    rw [get_cached_of_l1_none env h st query user_id history thr
      (check_l1_fst_none env h.l1Ok st query user_id history h1), h2, h3]
  · intro h1 h2 h3
    rw [get_cached_of_l1_none env h st query user_id history thr
      (check_l1_fst_none env h.l1Ok st query user_id history h1), h2, h3]

/-- C3 witness: in the state st3 the query 你好 of user u would hit both Tier
1 and Tier 2, and the lookup answers from Tier 1. -/
theorem claim3_witness :
    check_l1_cache env0 true st3 "你好" "u" [] = (some e1cHit, st3x) ∧
    check_l2_cache env0 true st3 "你好" "u" 0.92 = some e2c ∧
    get_cached_response env0 ⟨true, true, true⟩ st3 "你好" "u" [] 0.92 =
      (some (e1cHit, "L1"), st3x) :=
  ⟨by rfl, wL2,
    (claim3_tier_precedence env0 ⟨true, true, true⟩ st3 "你好" "u" [] 0.92).1
      e1cHit st3x (by rfl)⟩

/-- C9: a failing backing store in any single tier is treated as a miss for
that tier only, lookup proceeding to the next tier, and with every store
unreachable the lookup returns a miss instead of raising. -/
theorem claim9_tier_failure_degrades (env : CacheEnv) (st : CacheState)
    (query user_id : String) (history : List Message) (thr : ℚ) (h2 h3 : Bool) :
    check_l1_cache env false st query user_id history = (none, st) ∧
    check_l2_cache env false st query user_id thr = none ∧
    check_l3_cache env false st query = none ∧
    (get_cached_response env ⟨false, h2, h3⟩ st query user_id history thr =
      match check_l2_cache env h2 st query user_id thr with
      | some e => (some (e, "L2"), st)
      | none =>
        match check_l3_cache env h3 st query with
        | some e => (some (e, "L3"), st)
        | none => (none, st)) ∧
    get_cached_response env ⟨false, false, false⟩ st query user_id history thr =
      (none, st) := by
  refine ⟨rfl, rfl, rfl, ?_, rfl⟩
  exact get_cached_of_l1_none env ⟨false, h2, h3⟩ st query user_id history thr rfl

theorem set_cache_init_ok (env : CacheEnv) (r q : Bool) (st : CacheState)
    (query response user_id provider intent : String)
    (complexity tokens_used : Int) (history : List Message) (now : String) :
    set_cache env ⟨true, r, q⟩ st query response user_id provider intent complexity
        tokens_used history now =
      .ok (if complexity ≥ 3 then
            write_to_qdrant env q
              (write_to_redis env r st query
                (set_cache_entry query response user_id provider intent complexity
                  tokens_used now) user_id history)
              query
              (set_cache_entry query response user_id provider intent complexity
                tokens_used now) user_id
          else
            write_to_redis env r st query
              (set_cache_entry query response user_id provider intent complexity
                tokens_used now) user_id history) := rfl

/-- C7: every set_cache call writes the entry to Tier 1 unconditionally,
writes it to the user's Tier-2 semantic collection iff complexity is at
least 3, and never writes to the Tier-3 knowledge collection. -/
theorem claim7_set_cache_tiers (env : CacheEnv) (st : CacheState)
    (query response user_id provider intent : String)
    (complexity tokens_used : Int) (history : List Message) (now : String) :
    ∃ st2, set_cache env ⟨true, true, true⟩ st query response user_id provider intent
        complexity tokens_used history now = .ok st2 ∧
      alistGet st2.redis
          (generate_cache_key env query user_id (calculate_context_hash env history)) =
        some (set_cache_entry query response user_id provider intent complexity
          tokens_used now) ∧
      (complexity ≥ 3 → ∃ pts, alistGet st2.collections ("cache_user_" ++ user_id) =
        some (⟨env.md5hex (user_id ++ ":" ++ query), query,
          set_cache_entry query response user_id provider intent complexity
            tokens_used now⟩ :: pts)) ∧
      (¬ complexity ≥ 3 → st2.collections = st.collections) ∧
      alistGet st2.collections "knowledge_base_qa" =
        alistGet st.collections "knowledge_base_qa" := by
  by_cases hc : complexity ≥ 3
  · refine ⟨write_to_qdrant env true
        (write_to_redis env true st query
          (set_cache_entry query response user_id provider intent complexity
            tokens_used now) user_id history)
        query
        (set_cache_entry query response user_id provider intent complexity
          tokens_used now) user_id, ?_, ?_, ?_, ?_, ?_⟩
    · rw [set_cache_init_ok, if_pos hc]
    · exact alistGet_cons_self _ _ _
    · intro _
      exact ⟨_, alistGet_cons_self _ _ _⟩
    · intro hnc
      exact absurd hc hnc
    · exact alistGet_cons_ne _ _ _ _ (cache_user_ne_knowledge user_id)
  · refine ⟨write_to_redis env true st query
        (set_cache_entry query response user_id provider intent complexity
          tokens_used now) user_id history, ?_, ?_, ?_, ?_, ?_⟩
    · rw [set_cache_init_ok, if_neg hc]
    · exact alistGet_cons_self _ _ _
    · intro h3
      exact absurd h3 hc
    · intro _
      rfl
    · rfl

/-- C7 witness: a concrete complexity-5 write on the empty state. -/
theorem claim7_witness :
    ∃ st2, set_cache env0 ⟨true, true, true⟩ ⟨[], []⟩ "你好" "回答" "u" "gpt-5"
        "advice_request" 5 100 [] "t0" = .ok st2 ∧
      alistGet st2.redis
          (generate_cache_key env0 "你好" "u" (calculate_context_hash env0 [])) =
        some (set_cache_entry "你好" "回答" "u" "gpt-5" "advice_request" 5 100 "t0") ∧
      ((5 : Int) ≥ 3 → ∃ pts, alistGet st2.collections ("cache_user_" ++ "u") =
        some (⟨env0.md5hex ("u" ++ ":" ++ "你好"), "你好",
          set_cache_entry "你好" "回答" "u" "gpt-5" "advice_request" 5 100 "t0"⟩ :: pts)) ∧
      (¬ (5 : Int) ≥ 3 → st2.collections = (⟨[], []⟩ : CacheState).collections) ∧
      alistGet st2.collections "knowledge_base_qa" =
        alistGet (⟨[], []⟩ : CacheState).collections "knowledge_base_qa" :=
  claim7_set_cache_tiers env0 ⟨[], []⟩ "你好" "回答" "u" "gpt-5" "advice_request" 5 100 [] "t0"

/-- C8: invalidate_user_cache removes exactly the user's cache state: all of
the user's Tier-1 keys and the whole Tier-2 collection are gone, a subsequent
exact or semantic lookup for that user misses, while the shared Tier-3
knowledge collection and every other user's Tier-1 and Tier-2 entries are
unchanged (for distinct colon-free user ids, as produced by the system). -/
theorem claim8_invalidate_exact (env : CacheEnv) (st : CacheState)
    (u u2 query query2 : String) (history history2 : List Message) (thr : ℚ)
    (hne : u2 ≠ u) (hu : ':' ∉ u.data) (hu2 : ':' ∉ u2.data) :
    ∃ st1, invalidate_user_cache ⟨true, true⟩ st u = .ok st1 ∧
      st1.redis.all
        (fun kv => !(("response:" ++ u ++ ":").data.isPrefixOf kv.1.data)) = true ∧
      alistGet st1.collections ("cache_user_" ++ u) = none ∧
      check_l1_cache env true st1 query u history = (none, st1) ∧
      check_l2_cache env true st1 query u thr = none ∧
      alistGet st1.collections "knowledge_base_qa" =
        alistGet st.collections "knowledge_base_qa" ∧
      check_l3_cache env true st1 query = check_l3_cache env true st query ∧
      alistGet st1.redis
          (generate_cache_key env query2 u2 (calculate_context_hash env history2)) =
        alistGet st.redis
          (generate_cache_key env query2 u2 (calculate_context_hash env history2)) ∧
      alistGet st1.collections ("cache_user_" ++ u2) =
        alistGet st.collections ("cache_user_" ++ u2) := by
  have hredis : (delete_collection (delete_pattern_user st u)
      ("cache_user_" ++ u)).redis =
      st.redis.filter
        (fun kv => !(("response:" ++ u ++ ":").data.isPrefixOf kv.1.data)) := rfl
  have hcolls : (delete_collection (delete_pattern_user st u)
      ("cache_user_" ++ u)).collections =
      st.collections.filter (fun c => !(c.1 == "cache_user_" ++ u)) := rfl
  have hdrop : alistGet (delete_collection (delete_pattern_user st u)
      ("cache_user_" ++ u)).collections ("cache_user_" ++ u) = none := by
    rw [hcolls]
    exact alistGet_filter_out _ _ _ (fun v => by simp)
  have hmiss : alistGet (delete_collection (delete_pattern_user st u)
      ("cache_user_" ++ u)).redis
      (generate_cache_key env query u (calculate_context_hash env history)) = none := by
    rw [hredis]
    refine alistGet_filter_out _ _ _ (fun v => ?_)
    show (!(("response:" ++ u ++ ":").data.isPrefixOf
      (generate_cache_key env query u (calculate_context_hash env history)).data)) = false
    rw [genkey_self_prefixed]
    rfl
  have hknow : alistGet (delete_collection (delete_pattern_user st u)
      ("cache_user_" ++ u)).collections "knowledge_base_qa" =
      alistGet st.collections "knowledge_base_qa" := by
    rw [hcolls]
    refine alistGet_filter_keep _ _ _ (fun v => ?_)
    show (!(("knowledge_base_qa" : String) == "cache_user_" ++ u)) = true
    rw [beq_eq_false_iff_ne.mpr (Ne.symm (cache_user_ne_knowledge u))]
    rfl
  refine ⟨delete_collection (delete_pattern_user st u) ("cache_user_" ++ u),
    rfl, ?_, hdrop, ?_, ?_, hknow, ?_, ?_, ?_⟩
  · rw [hredis]
    exact all_filter_self _ _
  · unfold check_l1_cache
    rw [hmiss]
    simp
  · unfold check_l2_cache
    rw [hdrop]
    simp
  · unfold check_l3_cache
    rw [hknow]
  · rw [hredis]
    refine alistGet_filter_keep _ _ _ (fun v => ?_)
    show (!(("response:" ++ u ++ ":").data.isPrefixOf
      (generate_cache_key env query2 u2 (calculate_context_hash env history2)).data)) = true
    rw [genkey_other_not_prefixed env query2 u u2 _ hne hu hu2]
    rfl
  · rw [hcolls]
    refine alistGet_filter_keep _ _ _ (fun v => ?_)
    show (!(("cache_user_" ++ u2) == "cache_user_" ++ u)) = true
    rw [beq_eq_false_iff_ne.mpr (fun h => hne (cache_user_collection_inj u u2 h))]
    rfl

/-- C8 witness: invalidating alice in the two-user state st8 leaves bob and
the knowledge base intact while alice's lookups miss. -/
theorem claim8_witness :
    ("bob" ≠ "alice") ∧
    (∃ st1, invalidate_user_cache ⟨true, true⟩ st8 "alice" = .ok st1 ∧
      st1.redis.all
        (fun kv => !(("response:" ++ "alice" ++ ":").data.isPrefixOf kv.1.data)) = true ∧
      alistGet st1.collections ("cache_user_" ++ "alice") = none ∧
      check_l1_cache env0 true st1 "你好" "alice" [] = (none, st1) ∧
      check_l2_cache env0 true st1 "你好" "alice" 0.92 = none ∧
      alistGet st1.collections "knowledge_base_qa" =
        alistGet st8.collections "knowledge_base_qa" ∧
      check_l3_cache env0 true st1 "你好" = check_l3_cache env0 true st8 "你好" ∧
      alistGet st1.redis
          (generate_cache_key env0 "你好" "bob" (calculate_context_hash env0 [])) =
        alistGet st8.redis
          (generate_cache_key env0 "你好" "bob" (calculate_context_hash env0 [])) ∧
      alistGet st1.collections ("cache_user_" ++ "bob") =
        alistGet st8.collections ("cache_user_" ++ "bob")) :=
  ⟨by decide, claim8_invalidate_exact env0 st8 "alice" "bob" "你好" "你好" [] [] 0.92
    (by decide) (by decide) (by decide)⟩

/-- C10: neither set_cache nor invalidate_user_cache ever propagates a
storage-layer error; with initialization healthy the Tier-1 and Tier-2 writes
are composed independently (each catching its own errors), and in particular
a failed Redis write does not prevent the Qdrant write. -/
theorem claim10_storage_errors_invisible (env : CacheEnv) (w : WriteHealth)
    (ih : InvalidateHealth) (st : CacheState)
    (query response user_id provider intent : String)
    (complexity tokens_used : Int) (history : List Message) (now : String) :
    (set_cache env w st query response user_id provider intent complexity
      tokens_used history now).isOk = true ∧
    (invalidate_user_cache ih st user_id).isOk = true ∧
    (w.initOk = true →
      set_cache env w st query response user_id provider intent complexity
          tokens_used history now =
        .ok (if complexity ≥ 3 then
              write_to_qdrant env w.qdrantOk
                (write_to_redis env w.redisOk st query
                  (set_cache_entry query response user_id provider intent complexity
                    tokens_used now) user_id history)
                query
                (set_cache_entry query response user_id provider intent complexity
                  tokens_used now) user_id
            else
              write_to_redis env w.redisOk st query
                (set_cache_entry query response user_id provider intent complexity
                  tokens_used now) user_id history)) ∧
    (w.initOk = true → w.redisOk = false → complexity ≥ 3 →
      set_cache env w st query response user_id provider intent complexity
          tokens_used history now =
        .ok (write_to_qdrant env w.qdrantOk st query
          (set_cache_entry query response user_id provider intent complexity
            tokens_used now) user_id)) := by
  obtain ⟨i, r, q⟩ := w
  refine ⟨?_, rfl, ?_, ?_⟩
  · cases i <;> rfl
  · intro hi
    cases i with
    | false => simp at hi
    | true =>
      exact set_cache_init_ok env r q st query response user_id provider intent
        complexity tokens_used history now
  · intro hi hr hc
    cases i with
    | false => simp at hi
    | true =>
      cases r with
      | true => simp at hr
      | false =>
        rw [set_cache_init_ok, if_pos hc]
        rfl

/-- C10 witness: with a failed Redis write and complexity 5 the call still
returns normally and performs the Qdrant write on the untouched state. -/
theorem claim10_witness :
    ((⟨true, false, true⟩ : WriteHealth).initOk = true) ∧
    ((⟨true, false, true⟩ : WriteHealth).redisOk = false) ∧
    ((5 : Int) ≥ 3) ∧
    set_cache env0 ⟨true, false, true⟩ ⟨[], []⟩ "你好" "回答" "u" "gpt-5"
        "advice_request" 5 100 [] "t0" =
      .ok (write_to_qdrant env0 true ⟨[], []⟩ "你好"
        (set_cache_entry "你好" "回答" "u" "gpt-5" "advice_request" 5 100 "t0") "u") :=
  ⟨rfl, rfl, by decide,
    (claim10_storage_errors_invisible env0 ⟨true, false, true⟩ ⟨true, true⟩ ⟨[], []⟩
      "你好" "回答" "u" "gpt-5" "advice_request" 5 100 [] "t0").2.2.2 rfl rfl (by decide)⟩

end PeakState
